import Mathlib

/-!
Shallow embedding of the income-verification portal server
(`src/server/routes.ts`, together with the Drizzle schema in the shared
schema module and the `DatabaseStorage` class of the storage module).

Database rows become Lean structures, the database becomes an explicit
`State` record of row lists with serial counters, and every Express handler
relevant to the claims becomes a pure function from a `State` (plus its
request data) to a response value and a new `State`.  Numeric columns
(`integer`) are modelled as `Int`; nullable columns as `Option`; text
columns holding enum-like values (`status`, `systemResult`, activity `type`)
as `String`, because the server stores whatever string reaches the storage
layer — the handlers for decisions and token updates pass `req.body`
through without parsing it against the zod schemas.
-/

/-- The `applicationStatuses` enum of the shared schema module. -/
def applicationStatuses : List String :=
  ["Draft", "Submitted", "NeedsInfo", "Approved", "Denied"]

/-- The `systemResults` enum of the shared schema module. -/
def systemResults : List String :=
  ["Eligible", "NotEligible", "NeedsReview"]

/-- The `activityTypes` enum of the shared schema module. -/
def activityTypes : List String :=
  ["Note", "System", "RequestInfo", "StatusChange"]

/-- The status values accepted by `submitDecisionSchema` in the shared
routes module (`z.enum(["Approved", "Denied", "NeedsInfo"])`). -/
def decisionStatuses : List String :=
  ["Approved", "Denied", "NeedsInfo"]

/-- A row of the `users` table. -/
structure User where
  id : Int
  email : String
  passwordHash : String
  role : String
  deriving Repr, DecidableEq

/-- A row of the `programs` table. -/
structure Program where
  id : Int
  name : String
  regionLabel : String
  effectiveStart : Int
  effectiveEnd : Option Int
  deriving Repr, DecidableEq

/-- A row of the `incomeLimits` table. -/
structure IncomeLimit where
  id : Int
  programId : Int
  householdSize : Int
  limitCents : Int
  versionLabel : String
  deriving Repr, DecidableEq

/-- A row of the `applications` table.  The applicant phone and address
columns and `createdAt` are plain data never consulted by the handlers
under verification and are omitted; `updatedAt` is kept because
`DatabaseStorage.updateApplication` always rewrites it. -/
structure Application where
  id : Int
  programId : Int
  applicantName : String
  applicantEmail : String
  applicantToken : String
  householdSize : Option Int
  annualIncomeCents : Option Int
  computedLimitCents : Option Int
  systemResult : Option String
  ruleVersion : Option String
  status : String
  submittedAt : Option Int
  reviewedBy : Option Int
  updatedAt : Int
  deriving Repr, DecidableEq

/-- A row of the `documents` table. -/
structure Document where
  id : Int
  applicationId : Int
  filename : String
  path : String
  mimeType : String
  sizeBytes : Int
  deriving Repr, DecidableEq

/-- A row of the `activityEvents` table. -/
structure ActivityEvent where
  id : Int
  applicationId : Int
  type : String
  message : String
  createdByUserId : Option Int
  createdAt : Int
  deriving Repr, DecidableEq

/-- The database: one list per table, in insertion order, plus the next
value of each serial primary-key column. -/
structure State where
  users : List User
  programs : List Program
  incomeLimits : List IncomeLimit
  applications : List Application
  documents : List Document
  activityEvents : List ActivityEvent
  nextProgramId : Int
  nextLimitId : Int
  nextAppId : Int
  nextEventId : Int
  deriving Repr, DecidableEq

/-- A `Partial<Application>` as accepted by
`DatabaseStorage.updateApplication`: each field is absent (`none`) or
present; for a nullable column a present value may itself be the SQL null.
`id` is the row key used by the `where` clause and is not modelled as
updatable; `updatedAt` is excluded because the storage layer overwrites it
unconditionally (`{ ...updates, updatedAt: new Date() }`). -/
structure AppUpdates where
  programId : Option Int := none
  applicantName : Option String := none
  applicantEmail : Option String := none
  applicantToken : Option String := none
  householdSize : Option (Option Int) := none
  annualIncomeCents : Option (Option Int) := none
  computedLimitCents : Option (Option Int) := none
  systemResult : Option (Option String) := none
  ruleVersion : Option (Option String) := none
  status : Option String := none
  submittedAt : Option (Option Int) := none
  reviewedBy : Option (Option Int) := none
  deriving Repr, DecidableEq

/-- The SQL `UPDATE ... SET { ...updates, updatedAt: new Date() }` applied
to one row: present fields replace the row's values, `updatedAt` is always
set to the current time. -/
def applyUpdates (a : Application) (u : AppUpdates) (now : Int) : Application :=
  { id := a.id,
    programId := u.programId.getD a.programId,
    applicantName := u.applicantName.getD a.applicantName,
    applicantEmail := u.applicantEmail.getD a.applicantEmail,
    applicantToken := u.applicantToken.getD a.applicantToken,
    householdSize := u.householdSize.getD a.householdSize,
    annualIncomeCents := u.annualIncomeCents.getD a.annualIncomeCents,
    computedLimitCents := u.computedLimitCents.getD a.computedLimitCents,
    systemResult := u.systemResult.getD a.systemResult,
    ruleVersion := u.ruleVersion.getD a.ruleVersion,
    status := u.status.getD a.status,
    submittedAt := u.submittedAt.getD a.submittedAt,
    reviewedBy := u.reviewedBy.getD a.reviewedBy,
    updatedAt := now }

/-- `DatabaseStorage.updateApplication`: update every row whose `id`
matches (the primary key makes it at most one) and return the first
updated row, `none` when no row matched (the `[updated]` destructuring of
an empty result). -/
def updateApplicationS (s : State) (i : Int) (u : AppUpdates) (now : Int) :
    Option Application × State :=
  let apps := s.applications.map (fun a => if a.id == i then applyUpdates a u now else a)
  (apps.find? (fun a => a.id == i), { s with applications := apps })

/-- `DatabaseStorage.createActivityEvent`: insert a row with the next
serial id. -/
def createActivityEventS (s : State) (applicationId : Int) (type : String)
    (message : String) (createdByUserId : Option Int) (now : Int) :
    ActivityEvent × State :=
  let ev : ActivityEvent :=
    { id := s.nextEventId, applicationId := applicationId, type := type,
      message := message, createdByUserId := createdByUserId, createdAt := now }
  (ev, { s with activityEvents := s.activityEvents ++ [ev],
                nextEventId := s.nextEventId + 1 })

/-- `DatabaseStorage.getApplicationByToken`: first row whose
`applicantToken` equals the token (the column is unique). -/
def getApplicationByTokenS (s : State) (token : String) : Option Application :=
  s.applications.find? (fun a => a.applicantToken == token)

/-- `DatabaseStorage.getApplication`: first row with the given id. -/
def getApplicationS (s : State) (i : Int) : Option Application :=
  s.applications.find? (fun a => a.id == i)

/-- `DatabaseStorage.getIncomeLimitForHousehold`: first `incomeLimits` row
matching the program id and the exact household size. -/
def getIncomeLimitForHousehold (limits : List IncomeLimit)
    (programId size : Int) : Option IncomeLimit :=
  limits.find? (fun l => l.programId == programId && l.householdSize == size)

/-- `DatabaseStorage.getProgram`: first `programs` row with the given id. -/
def getProgramS (s : State) (i : Int) : Option Program :=
  s.programs.find? (fun p => p.id == i)

/-- `DatabaseStorage.getDocuments`: the rows for one application. -/
def getDocumentsS (s : State) (applicationId : Int) : List Document :=
  s.documents.filter (fun d => d.applicationId == applicationId)

/-- `DatabaseStorage.getActivityEvents`: the rows for one application,
newest first (`orderBy(desc(activityEvents.createdAt))`; later-inserted
rows of equal timestamp are modelled as kept in stable order). -/
def getActivityEventsS (s : State) (applicationId : Int) : List ActivityEvent :=
  ((s.activityEvents.filter (fun e => e.applicationId == applicationId)).mergeSort
    (fun a b => b.createdAt ≤ a.createdAt))

/-- `DatabaseStorage.getUser`: first `users` row with the given id. -/
def getUserS (s : State) (i : Int) : Option User :=
  s.users.find? (fun u => u.id == i)

/-- PostgreSQL `LIKE` pattern matching over character lists, as performed
by the `like(applications.applicantName, pattern)` condition: `%` matches
any sequence of characters (modelled as dropping any number of leading
characters before matching the rest of the pattern), `_` matches exactly
one character, any other pattern character matches itself, and the whole
string must be consumed.  No escape syntax is involved because the storage
layer interpolates the user's search string into the pattern without
escaping, so wildcard characters inside the search keep their meaning. -/
def likeMatch : List Char → List Char → Bool
  | [], s => s.isEmpty
  | p :: ps, s =>
    if p == '%' then
      (List.range (s.length + 1)).any (fun i => likeMatch ps (s.drop i))
    else
      match s with
      | [] => false
      | c :: rest => (if p == '_' then true else p == c) && likeMatch ps rest

/-- The pattern string `'%' + search + '%'` that
`DatabaseStorage.getApplications` builds for the name filter, as a
character list. -/
def searchPattern (v : String) : List Char :=
  '%' :: (v.toList ++ ['%'])

/-- The `filters` argument of `DatabaseStorage.getApplications`, as built
by the list handler: `none` models a JavaScript `undefined` field. -/
structure AppFilters where
  status : Option String := none
  programId : Option Int := none
  search : Option String := none
  deriving Repr, DecidableEq

/-- JavaScript truthiness of an optional string (`undefined` and the empty
string are falsy). -/
def truthyStr : Option String → Bool
  | none => false
  | some v => !v.isEmpty

/-- JavaScript truthiness of an optional number (`undefined` and `0` are
falsy; `NaN`, which is also falsy, cannot arise in the integer model). -/
def truthyInt : Option Int → Bool
  | none => false
  | some n => n != 0

/-- The conjunction of `where` conditions pushed by
`DatabaseStorage.getApplications`: each `if (filters?.x)` guard is a
JavaScript truthiness test, so a falsy filter value adds no condition. -/
def appFilterCond (f : AppFilters) (a : Application) : Bool :=
  (match f.status with
   | some v => if v.isEmpty then true else a.status == v
   | none => true) &&
  (match f.programId with
   | some n => if n == 0 then true else a.programId == n
   | none => true) &&
  (match f.search with
   | some v => if v.isEmpty then true
               else likeMatch (searchPattern v) a.applicantName.toList
   | none => true)

/-- The `orderBy(desc(applications.submittedAt))` comparison: descending
on `submittedAt`, with SQL nulls first (PostgreSQL default for `DESC`). -/
def submittedDescLe (a b : Application) : Bool :=
  match a.submittedAt, b.submittedAt with
  | none, _ => true
  | some _, none => false
  | some x, some y => y ≤ x

/-- `DatabaseStorage.getApplications`: the rows passing every truthy
filter, ordered by `submittedAt` descending (row order among ties is
unspecified by SQL and modelled as stable). -/
def getApplicationsS (s : State) (f : AppFilters) : List Application :=
  (s.applications.filter (appFilterCond f)).mergeSort submittedDescLe

/-- Model of the zod `.email()` refinement used by
`startApplicationSchema`: the zod regular expression is a third-party
library detail; it is abstracted to the shape every address it accepts
has — exactly one `@` that is neither the first nor the last character. -/
def zodEmailOk (s : String) : Bool :=
  (s.toList.filter (fun c => c == '@')).length == 1 &&
  s.toList.head? != some '@' &&
  s.toList.getLast? != some '@'

/-- The body of `POST /api/applications/start` after the
`z.coerce.number()` coercion of `programId` (number coercion of the raw
request value is a zod library detail outside the model). -/
structure StartInput where
  programId : Int
  applicantName : String
  applicantEmail : String
  deriving Repr, DecidableEq

/-- `startApplicationSchema` validation: `applicantName` non-empty
(`min(1)`) and `applicantEmail` a valid email. -/
def startValidate (i : StartInput) : Bool :=
  !i.applicantName.isEmpty && zodEmailOk i.applicantEmail

/-- Response of the start handler: `201` with the token and new id, or the
zod parse failure (which aborts the handler before any insert). -/
inductive StartOut where
  | created (token : String) (id : Int)
  | invalid
  deriving Repr, DecidableEq

/-- The `POST /api/applications/start` handler: generate a token (passed
in as `token`, modelling the `randomBytes` value), parse the body, insert
a `Draft` application carrying the token with `systemResult`
`"NeedsReview"`, and answer `201` with the token and the new id. -/
def startApplication (s : State) (raw : StartInput) (token : String)
    (now : Int) : StartOut × State :=
  if startValidate raw then
    let app : Application :=
      { id := s.nextAppId, programId := raw.programId,
        applicantName := raw.applicantName, applicantEmail := raw.applicantEmail,
        applicantToken := token, householdSize := none,
        annualIncomeCents := none, computedLimitCents := none,
        systemResult := some "NeedsReview", ruleVersion := none,
        status := "Draft", submittedAt := none, reviewedBy := none,
        updatedAt := now }
    (StartOut.created token app.id,
     { s with applications := s.applications ++ [app],
              nextAppId := s.nextAppId + 1 })
  else (StartOut.invalid, s)

/-- Response of the update-by-token handler. -/
inductive UpdateOut where
  | notFound
  | forbidden (message : String)
  | ok (app : Option Application)
  deriving Repr, DecidableEq

/-- The `PATCH /api/applications/by-token/:token` handler: 404 when the
token matches no application, 403 when the status is neither `"Draft"`
nor `"NeedsInfo"`, otherwise apply `req.body` (never parsed against a
schema) through `updateApplication`. -/
def updateByToken (s : State) (token : String) (body : AppUpdates)
    (now : Int) : UpdateOut × State :=
  match getApplicationByTokenS s token with
  | none => (UpdateOut.notFound, s)
  | some app =>
    if app.status != "Draft" && app.status != "NeedsInfo" then
      (UpdateOut.forbidden "Cannot edit submitted application", s)
    else
      let r := updateApplicationS s app.id body now
      (UpdateOut.ok r.1, r.2)

/-- The eligibility computation inside the submit handler, returning the
`result`, `computedLimitCents` and `ruleVersion` locals: the guard
`app.householdSize && app.annualIncomeCents !== null` is a truthiness
test on `householdSize` (null and 0 both fail it) and a null test on
`annualIncomeCents` (0 passes it). -/
def computeEligibility (limits : List IncomeLimit) (app : Application) :
    String × Option Int × Option String :=
  match app.householdSize, app.annualIncomeCents with
  | some h, some income =>
    if h != 0 then
      match getIncomeLimitForHousehold limits app.programId h with
      | some limit =>
        (if income ≤ limit.limitCents then "Eligible" else "NotEligible",
         some limit.limitCents, some limit.versionLabel)
      | none => ("NeedsReview", none, none)
    else ("NeedsReview", none, none)
  | _, _ => ("NeedsReview", none, none)

/-- Response of the submit-by-token handler. -/
inductive SubmitOut where
  | notFound
  | ok (app : Option Application)
  deriving Repr, DecidableEq

/-- The `POST /api/applications/by-token/:token/submit` handler: 404 when
the token matches no application; otherwise compute eligibility, store
status `"Submitted"`, `submittedAt`, `systemResult`, `computedLimitCents`
and `ruleVersion`, append one `"System"` activity event, and return the
updated row.  No status precondition is checked. -/
def submitByToken (s : State) (token : String) (now : Int) :
    SubmitOut × State :=
  match getApplicationByTokenS s token with
  | none => (SubmitOut.notFound, s)
  | some app =>
    let e := computeEligibility s.incomeLimits app
    let r := updateApplicationS s app.id
      { status := some "Submitted", submittedAt := some (some now),
        systemResult := some (some e.1), computedLimitCents := some e.2.1,
        ruleVersion := some e.2.2 } now
    let r2 := createActivityEventS r.2 app.id "System"
      ("Application submitted. System calculation: " ++ e.1) none now
    (SubmitOut.ok r.1, r2.2)

/-- Body of `POST /api/applications/:id/decision`: read with
`const { status, note } = req.body` and never parsed against
`submitDecisionSchema`, so `status` is an arbitrary string. -/
structure DecisionBody where
  status : String
  note : String
  deriving Repr, DecidableEq

/-- Response of the decision handler. -/
inductive DecisionOut where
  | unauthorized
  | notFound
  | ok (app : Option Application)
  deriving Repr, DecidableEq

/-- The `POST /api/applications/:id/decision` handler: 401 before any
storage access when unauthenticated, 404 when the id matches no
application; otherwise set the body's `status` and `reviewedBy`, append
one activity event typed `"RequestInfo"` for `"NeedsInfo"` and
`"StatusChange"` otherwise, and return the re-read row. -/
def decision (s : State) (authed : Bool) (userId : Int) (appId : Int)
    (body : DecisionBody) (now : Int) : DecisionOut × State :=
  if !authed then (DecisionOut.unauthorized, s)
  else
    match getApplicationS s appId with
    | none => (DecisionOut.notFound, s)
    | some app =>
      let r := updateApplicationS s app.id
        { status := some body.status, reviewedBy := some (some userId) } now
      let r2 := createActivityEventS r.2 app.id
        (if body.status == "NeedsInfo" then "RequestInfo" else "StatusChange")
        ("Status changed to " ++ body.status ++ ". Note: " ++ body.note)
        (some userId) now
      (DecisionOut.ok (getApplicationS r2.2 app.id), r2.2)

/-- Response of the reviewer list handler: each row enriched with its
program (`program!` in the source asserts non-null only at the type
level, so the lookup result stays optional here). -/
inductive ListOut where
  | unauthorized
  | ok (apps : List (Application × Option Program))
  deriving Repr, DecidableEq

/-- The `GET /api/applications` reviewer handler: 401 before any storage
access when unauthenticated; otherwise filter via
`DatabaseStorage.getApplications` and enrich each row with its program. -/
def listApplications (s : State) (authed : Bool) (f : AppFilters) :
    ListOut × State :=
  if !authed then (ListOut.unauthorized, s)
  else
    (ListOut.ok ((getApplicationsS s f).map
      (fun a => (a, getProgramS s a.programId))), s)

/-- Payload of the reviewer get handler: the row, its documents, its
activity events each with the creating user, the program, and the income
limit row currently matching the application (`incomeLimitSnapshot`,
looked up only when `householdSize` is truthy). -/
structure GetPayload where
  app : Application
  documents : List Document
  activityEvents : List (ActivityEvent × Option User)
  program : Option Program
  incomeLimitSnapshot : Option IncomeLimit
  deriving Repr, DecidableEq

/-- Response of the reviewer get handler. -/
inductive GetOut where
  | unauthorized
  | notFound
  | ok (payload : GetPayload)
  deriving Repr, DecidableEq

/-- The `GET /api/applications/:id` reviewer handler: 401 before any
storage access when unauthenticated, 404 for an unknown id, otherwise the
enriched payload. -/
def getApplicationR (s : State) (authed : Bool) (appId : Int) :
    GetOut × State :=
  if !authed then (GetOut.unauthorized, s)
  else
    match getApplicationS s appId with
    | none => (GetOut.notFound, s)
    | some app =>
      (GetOut.ok
        { app := app,
          documents := getDocumentsS s app.id,
          activityEvents := (getActivityEventsS s app.id).map
            (fun ev => (ev, match ev.createdByUserId with
                            | some uid => getUserS s uid
                            | none => none)),
          program := getProgramS s app.programId,
          incomeLimitSnapshot :=
            match app.householdSize with
            | some h => if h != 0 then
                getIncomeLimitForHousehold s.incomeLimits app.programId h
              else none
            | none => none },
       s)

/-- Body of `POST /api/programs` (passed to `createProgram` unparsed). -/
structure ProgramInput where
  name : String
  regionLabel : String
  effectiveStart : Int
  effectiveEnd : Option Int
  deriving Repr, DecidableEq

/-- Response of the create-program handler. -/
inductive ProgramOut where
  | unauthorized
  | created (program : Program)
  deriving Repr, DecidableEq

/-- The `POST /api/programs` handler: 401 before any storage access when
unauthenticated, otherwise insert the body as a program row. -/
def createProgramH (s : State) (authed : Bool) (body : ProgramInput) :
    ProgramOut × State :=
  if !authed then (ProgramOut.unauthorized, s)
  else
    let p : Program :=
      { id := s.nextProgramId, name := body.name,
        regionLabel := body.regionLabel,
        effectiveStart := body.effectiveStart,
        effectiveEnd := body.effectiveEnd }
    (ProgramOut.created p,
     { s with programs := s.programs ++ [p],
              nextProgramId := s.nextProgramId + 1 })

/-- Body of `POST /api/programs/:id/limits` (the `programId` comes from
the URL parameter, not the body). -/
structure LimitInput where
  householdSize : Int
  limitCents : Int
  versionLabel : String
  deriving Repr, DecidableEq

/-- Response of the create-income-limit handler. -/
inductive LimitOut where
  | unauthorized
  | created (limit : IncomeLimit)
  deriving Repr, DecidableEq

/-- The `POST /api/programs/:id/limits` handler: 401 before any storage
access when unauthenticated, otherwise insert the limit row with the
URL's program id. -/
def createIncomeLimitH (s : State) (authed : Bool) (programId : Int)
    (body : LimitInput) : LimitOut × State :=
  if !authed then (LimitOut.unauthorized, s)
  else
    let l : IncomeLimit :=
      { id := s.nextLimitId, programId := programId,
        householdSize := body.householdSize,
        limitCents := body.limitCents,
        versionLabel := body.versionLabel }
    (LimitOut.created l,
     { s with incomeLimits := s.incomeLimits ++ [l],
              nextLimitId := s.nextLimitId + 1 })

/-- Two-digit rendering of a remainder for the `toFixed(2)` model. -/
def twoDigits (n : Int) : String :=
  if n < 10 then "0" ++ toString n else toString n

/-- Model of `(a.annualIncomeCents / 100).toFixed(2)` for the non-negative
cent amounts the application form produces. -/
def centsToFixed (n : Int) : String :=
  toString (n / 100) ++ "." ++ twoDigits (n % 100)

/-- One CSV data row of the export handler, with its JavaScript truthiness
quirks: a zero income renders as the empty string
(`a.annualIncomeCents ? ... : ''`), and so does a zero household size
(`a.householdSize || ''`). -/
def csvRow (a : Application) : String :=
  String.intercalate ","
    [toString a.id,
     "\"" ++ a.applicantName ++ "\"",
     a.applicantEmail,
     toString a.programId,
     a.status,
     (match a.systemResult with
      | some rv => rv
      | none => ""),
     (if truthyInt a.annualIncomeCents then
        centsToFixed (a.annualIncomeCents.getD 0)
      else ""),
     (if truthyInt a.householdSize then
        toString (a.householdSize.getD 0)
      else ""),
     (match a.submittedAt with
      | some t => toString t
      | none => "")]

/-- Response of the CSV export handler. -/
inductive CsvOut where
  | unauthorized
  | ok (csv : String)
  deriving Repr, DecidableEq

/-- The `GET /api/exports/applications` handler: 401 before any storage
access when unauthenticated, otherwise a header row followed by one row
per application (no filters are passed to `getApplications`). -/
def exportApplications (s : State) (authed : Bool) : CsvOut × State :=
  if !authed then (CsvOut.unauthorized, s)
  else
    (CsvOut.ok (String.intercalate "\n"
      ("ID,Applicant,Email,Program ID,Status,System Result,Income,Household Size,Submitted At"
        :: (getApplicationsS s { }).map csvRow)), s)

/-- The empty database every reachability scenario starts from (serial
columns start at 1). -/
def initialState : State :=
  { users := [], programs := [], incomeLimits := [], applications := [],
    documents := [], activityEvents := [],
    nextProgramId := 1, nextLimitId := 1, nextAppId := 1, nextEventId := 1 }

/-- Fixture: a draft application with household size 2. -/
def appDraft : Application :=
  { id := 1, programId := 1, applicantName := "Alice Lee",
    applicantEmail := "alice@example.com", applicantToken := "tok1",
    householdSize := some 2, annualIncomeCents := some 3000000,
    computedLimitCents := none, systemResult := some "NeedsReview",
    ruleVersion := none, status := "Draft", submittedAt := none,
    reviewedBy := none, updatedAt := 0 }

/-- Fixture: an income limit row for household size 2 of program 1. -/
def limitTwo : IncomeLimit :=
  { id := 1, programId := 1, householdSize := 2, limitCents := 4000000,
    versionLabel := "2024-V1" }

/-- Fixture: a database holding `appDraft` and `limitTwo`. -/
def stateMain : State :=
  { initialState with applications := [appDraft], incomeLimits := [limitTwo],
                      nextAppId := 2, nextLimitId := 2 }

/-- Fixture: an application whose household size is the number 0 while its
income is present. -/
def appZeroHousehold : Application :=
  { appDraft with applicantToken := "tokZ", householdSize := some 0,
                  annualIncomeCents := some 100 }

/-- Fixture: an income limit row for household size 0 of program 1. -/
def limitZero : IncomeLimit :=
  { id := 1, programId := 1, householdSize := 0, limitCents := 500,
    versionLabel := "2024-V1" }

/-- Fixture: a database holding `appZeroHousehold` and `limitZero`. -/
def stateZeroHousehold : State :=
  { initialState with applications := [appZeroHousehold],
                      incomeLimits := [limitZero],
                      nextAppId := 2, nextLimitId := 2 }

/-- Fixture: a draft application with household size 3 in a database with
no income limit rows at all. -/
def appNoLimit : Application :=
  { appDraft with applicantToken := "tokN", householdSize := some 3 }

/-- Fixture: a database holding only `appNoLimit`. -/
def stateNoLimit : State :=
  { initialState with applications := [appNoLimit], nextAppId := 2 }

/-- Fixture: an already-approved application. -/
def appApproved : Application :=
  { appDraft with applicantToken := "tokA", status := "Approved",
                  systemResult := some "Eligible", submittedAt := some 4,
                  reviewedBy := some 9 }

/-- Fixture: a database holding `appApproved` and `limitTwo`. -/
def stateApproved : State :=
  { initialState with applications := [appApproved], incomeLimits := [limitTwo],
                      nextAppId := 2, nextLimitId := 2 }

/-- Fixture: an application reporting an annual income of exactly 0 cents
with household size 2. -/
def appZeroIncome : Application :=
  { appDraft with applicantToken := "tokI", annualIncomeCents := some 0 }

/-- Fixture: a database holding `appZeroIncome` and `limitTwo`. -/
def stateZeroIncome : State :=
  { initialState with applications := [appZeroIncome], incomeLimits := [limitTwo],
                      nextAppId := 2, nextLimitId := 2 }

/-- Fixture: a valid start-application body. -/
def startRawGood : StartInput :=
  { programId := 2, applicantName := "Bob Moore", applicantEmail := "bob@example.org" }

/-- Fixture: a start-application body with an empty name, rejected by
`startApplicationSchema`. -/
def startRawBad : StartInput :=
  { programId := 2, applicantName := "", applicantEmail := "bob@example.org" }

/-- Fixture: the state after starting an application on an empty database
(the reachable prefix of the decision counterexample scenario). -/
def startedScenario : StartOut × State :=
  startApplication initialState
    { programId := 1, applicantName := "Alice", applicantEmail := "alice@example.com" }
    "tokC" 1

/-- Fixture: a reviewer decision on the started application whose body
carries a status string outside every schema enum. -/
def decidedScenario : DecisionOut × State :=
  decision startedScenario.2 true 7 1 { status := "Garbage", note := "check" } 2

/-- The invariant that every stored application's status lies in the
five-value `applicationStatuses` enum. -/
def statusesOk (s : State) : Prop :=
  ∀ a ∈ s.applications, a.status ∈ applicationStatuses

/-- The update record the submit handler stores. -/
def submitUpdates (limits : List IncomeLimit) (app : Application) (now : Int) :
    AppUpdates :=
  { status := some "Submitted", submittedAt := some (some now),
    systemResult := some (some (computeEligibility limits app).1),
    computedLimitCents := some (computeEligibility limits app).2.1,
    ruleVersion := some (computeEligibility limits app).2.2 }

/-- The application row as submission rewrites it. -/
def submittedRow (limits : List IncomeLimit) (app : Application) (now : Int) :
    Application :=
  applyUpdates app (submitUpdates limits app now) now

/-- The update record the decision handler stores. -/
def decisionUpdates (userId : Int) (body : DecisionBody) : AppUpdates :=
  { status := some body.status, reviewedBy := some (some userId) }

/-- Updating a row never changes its primary key. -/
theorem applyUpdates_id (a : Application) (u : AppUpdates) (now : Int) :
    (applyUpdates a u now).id = a.id := rfl

/-- Storage lemma: when the stored ids are distinct and some lookup found
row `a`, looking `a.id` up again after the update-by-id returns exactly
the updated `a`. -/
theorem find?_map_update (l : List Application) (p : Application → Bool)
    (a : Application) (u : AppUpdates) (now : Int)
    (hfind : l.find? p = some a)
    (hnd : (l.map (fun x => x.id)).Nodup) :
    (l.map (fun b => if b.id == a.id then applyUpdates b u now else b)).find?
      (fun b => b.id == a.id) = some (applyUpdates a u now) := by
  induction l with
  | nil => simp at hfind
  | cons b t ih =>
    rw [List.map_cons, List.nodup_cons] at hnd
    by_cases hb : b.id = a.id
    · have hba : b = a := by
        cases hpb : p b with
        | true =>
          rw [List.find?_cons_of_pos _ hpb] at hfind
          exact Option.some.inj hfind
        | false =>
          rw [List.find?_cons_of_neg _ (by simp [hpb])] at hfind
          exact absurd (hb ▸ List.mem_map_of_mem (fun x => x.id)
            (List.mem_of_find?_eq_some hfind)) hnd.1
      subst hba
      rw [List.map_cons, if_pos (by simp), List.find?_cons_of_pos]
      simp [applyUpdates_id]
    · have hpb : p b = false := by
        cases hpb : p b with
        | true =>
          rw [List.find?_cons_of_pos _ hpb] at hfind
          exact absurd (congrArg Application.id (Option.some.inj hfind)) hb
        | false => rfl
      rw [List.find?_cons_of_neg _ (by simp [hpb])] at hfind
      rw [List.map_cons, if_neg (by simp [hb]), List.find?_cons_of_neg _ (by simp [hb])]
      exact ih hfind hnd.2

/-- Shape of a successful submission: the handler answers with exactly the
token's application updated by the computed eligibility record, the
application table is the pointwise update, and one new activity event row
is appended. -/
theorem submitByToken_found (s : State) (token : String) (now : Int)
    (app : Application)
    (hfind : getApplicationByTokenS s token = some app)
    (hnd : (s.applications.map (fun x => x.id)).Nodup) :
    submitByToken s token now =
      (SubmitOut.ok (some (applyUpdates app (submitUpdates s.incomeLimits app now) now)),
       { s with
          applications := s.applications.map (fun b =>
            if b.id == app.id then
              applyUpdates b (submitUpdates s.incomeLimits app now) now
            else b),
          activityEvents := s.activityEvents ++
            [{ id := s.nextEventId, applicationId := app.id, type := "System",
               message := "Application submitted. System calculation: " ++
                 (computeEligibility s.incomeLimits app).1,
               createdByUserId := none, createdAt := now }],
          nextEventId := s.nextEventId + 1 }) := by
  have hupd := find?_map_update s.applications
    (fun a => a.applicantToken == token) app
    (submitUpdates s.incomeLimits app now) now hfind hnd
  unfold submitByToken
  rw [hfind]
  simp only [updateApplicationS, createActivityEventS, submitUpdates] at hupd ⊢
  rw [hupd]

/-- Shape of an authenticated decision on an existing application: the
row gets the body's status and the reviewer id, one activity event row is
appended, and the handler returns the re-read updated row. -/
theorem decision_found (s : State) (userId appId : Int) (body : DecisionBody)
    (now : Int) (app : Application)
    (hfind : getApplicationS s appId = some app)
    (hnd : (s.applications.map (fun x => x.id)).Nodup) :
    decision s true userId appId body now =
      (DecisionOut.ok (some (applyUpdates app (decisionUpdates userId body) now)),
       { s with
          applications := s.applications.map (fun b =>
            if b.id == app.id then
              applyUpdates b (decisionUpdates userId body) now
            else b),
          activityEvents := s.activityEvents ++
            [{ id := s.nextEventId, applicationId := app.id,
               type := if body.status == "NeedsInfo" then "RequestInfo"
                       else "StatusChange",
               message := "Status changed to " ++ body.status ++ ". Note: " ++
                 body.note,
               createdByUserId := some userId, createdAt := now }],
          nextEventId := s.nextEventId + 1 }) := by
  have hupd := find?_map_update s.applications
    (fun a => a.id == appId) app (decisionUpdates userId body) now hfind hnd
  unfold decision
  rw [Bool.not_true, if_neg (by simp)]
  rw [hfind]
  simp only [updateApplicationS, createActivityEventS, decisionUpdates,
    getApplicationS] at hupd ⊢
  rw [hupd]

/-- Shape of an editable token update: the body is applied to the token's
row and the handler returns the re-read updated row. -/
theorem updateByToken_editable (s : State) (token : String) (body : AppUpdates)
    (now : Int) (app : Application)
    (hfind : getApplicationByTokenS s token = some app)
    (hnd : (s.applications.map (fun x => x.id)).Nodup)
    (hstatus : app.status = "Draft" ∨ app.status = "NeedsInfo") :
    updateByToken s token body now =
      (UpdateOut.ok (some (applyUpdates app body now)),
       { s with applications := s.applications.map (fun b =>
          if b.id == app.id then applyUpdates b body now else b) }) := by
  have hupd := find?_map_update s.applications
    (fun a => a.applicantToken == token) app body now hfind hnd
  unfold updateByToken
  rw [hfind]
  have hcond : (app.status != "Draft" && app.status != "NeedsInfo") = false := by
    rcases hstatus with h | h <;> simp [h]
  dsimp only
  rw [if_neg (by simp [hcond])]
  simp only [updateApplicationS] at hupd ⊢
  rw [hupd]

/-- Statuses stay inside the enum across an update-by-id whose `status`
field, when present, is itself inside the enum. -/
theorem statusesOk_update (l : List Application) (i : Int) (u : AppUpdates)
    (now : Int)
    (hok : ∀ a ∈ l, a.status ∈ applicationStatuses)
    (hu : ∀ v, u.status = some v → v ∈ applicationStatuses) :
    ∀ a ∈ l.map (fun b => if b.id == i then applyUpdates b u now else b),
      a.status ∈ applicationStatuses := by
  intro a ha
  rw [List.mem_map] at ha
  obtain ⟨x, hx, rfl⟩ := ha
  by_cases hid : (x.id == i) = true
  · rw [if_pos hid]
    cases hu2 : u.status with
    | none => simpa [applyUpdates, hu2] using hok x hx
    | some v => simpa [applyUpdates, hu2] using hu v hu2
  · rw [if_neg hid]
    exact hok x hx

/-- C1 counterexample: an application whose `householdSize` is the
non-null value 0, with income 100 and a matching limit row for household
size 0 whose limit 500 exceeds the income.  The claim as stated demands
`systemResult` `"Eligible"` with `computedLimitCents` 500, but the
handler's truthiness guard skips the lookup and records `"NeedsReview"`
with null `computedLimitCents` and `ruleVersion`. -/
theorem C1_counterexample :
    appZeroHousehold.householdSize = some 0 ∧
    appZeroHousehold.annualIncomeCents = some 100 ∧
    getIncomeLimitForHousehold stateZeroHousehold.incomeLimits
      appZeroHousehold.programId 0 = some limitZero ∧
    limitZero.limitCents = 500 ∧
    decide ((100 : Int) ≤ 500) = true ∧
    (submitByToken stateZeroHousehold "tokZ" 10).1 =
      SubmitOut.ok (some { appZeroHousehold with
        status := "Submitted", submittedAt := some 10,
        systemResult := some "NeedsReview", computedLimitCents := none,
        ruleVersion := none, updatedAt := 10 }) ∧
    (("NeedsReview" : String) == "Eligible") = false := by
  refine ⟨rfl, rfl, rfl, rfl, rfl, ?_, rfl⟩
  decide

/-- C1 (amended): on submission by token, when the application has a
non-null and NONZERO `householdSize`, a non-null `annualIncomeCents`, and
an income limit row exists for the application's `programId` and exact
`householdSize`, the recorded `systemResult` is `"Eligible"` when the
income is at most the limit and `"NotEligible"` otherwise, and
`computedLimitCents` and `ruleVersion` are set to the limit's `limitCents`
and `versionLabel`.  (The amendment adds "nonzero": the handler's guard is
JavaScript truthiness, not a null check.) -/
theorem C1_amended (s : State) (token : String) (now : Int)
    (app : Application) (h inc : Int) (limit : IncomeLimit)
    (hfind : getApplicationByTokenS s token = some app)
    (hnd : (s.applications.map (fun x => x.id)).Nodup)
    (hh : app.householdSize = some h) (hh0 : h ≠ 0)
    (hinc : app.annualIncomeCents = some inc)
    (hlim : getIncomeLimitForHousehold s.incomeLimits app.programId h = some limit) :
    (submitByToken s token now).1 =
      SubmitOut.ok (some (submittedRow s.incomeLimits app now)) ∧
    (submittedRow s.incomeLimits app now).systemResult =
      some (if inc ≤ limit.limitCents then "Eligible" else "NotEligible") ∧
    (submittedRow s.incomeLimits app now).computedLimitCents =
      some limit.limitCents ∧
    (submittedRow s.incomeLimits app now).ruleVersion =
      some limit.versionLabel := by
  have he : computeEligibility s.incomeLimits app =
      (if inc ≤ limit.limitCents then "Eligible" else "NotEligible",
       some limit.limitCents, some limit.versionLabel) := by
    unfold computeEligibility
    rw [hh, hinc]
    dsimp only
    rw [if_pos (by simp [hh0]), hlim]
  have hshape := submitByToken_found s token now app hfind hnd
  refine ⟨?_, ?_, ?_, ?_⟩
  · rw [hshape, submittedRow]
  · simp [submittedRow, applyUpdates, submitUpdates, he]
  · simp [submittedRow, applyUpdates, submitUpdates, he]
  · simp [submittedRow, applyUpdates, submitUpdates, he]

/-- C1 (amended) witness: the draft application of the main fixture, with
household size 2 and income 3000000 against the 4000000 limit. -/
theorem C1_amended_witness :
    (submitByToken stateMain "tok1" 10).1 =
      SubmitOut.ok (some (submittedRow stateMain.incomeLimits appDraft 10)) ∧
    (submittedRow stateMain.incomeLimits appDraft 10).systemResult =
      some (if (3000000 : Int) ≤ limitTwo.limitCents then "Eligible"
            else "NotEligible") ∧
    (submittedRow stateMain.incomeLimits appDraft 10).computedLimitCents =
      some limitTwo.limitCents ∧
    (submittedRow stateMain.incomeLimits appDraft 10).ruleVersion =
      some limitTwo.versionLabel :=
  C1_amended stateMain "tok1" 10 appDraft 2 3000000 limitTwo rfl (by decide)
    rfl (by decide) rfl rfl

/-- C2: on submission by token, when no income limit row exists for the
application's `programId` and `householdSize`, or `householdSize` or
`annualIncomeCents` is missing, the operation still succeeds: the
`systemResult` is recorded as `"NeedsReview"`, `computedLimitCents` and
`ruleVersion` are recorded as null, and the status becomes
`"Submitted"`. -/
theorem C2 (s : State) (token : String) (now : Int) (app : Application)
    (hfind : getApplicationByTokenS s token = some app)
    (hnd : (s.applications.map (fun x => x.id)).Nodup)
    (hmiss : app.householdSize = none ∨ app.annualIncomeCents = none ∨
      ∀ h, app.householdSize = some h →
        getIncomeLimitForHousehold s.incomeLimits app.programId h = none) :
    (submitByToken s token now).1 =
      SubmitOut.ok (some (submittedRow s.incomeLimits app now)) ∧
    (submittedRow s.incomeLimits app now).systemResult = some "NeedsReview" ∧
    (submittedRow s.incomeLimits app now).computedLimitCents = none ∧
    (submittedRow s.incomeLimits app now).ruleVersion = none ∧
    (submittedRow s.incomeLimits app now).status = "Submitted" := by
  have he : computeEligibility s.incomeLimits app = ("NeedsReview", none, none) := by
    unfold computeEligibility
    rcases hmiss with hm | hm | hm
    · rw [hm]
    · rw [hm]
      rcases app.householdSize with _ | v
      · rfl
      · rfl
    · rcases hhs : app.householdSize with _ | h
      · rcases app.annualIncomeCents with _ | v
        · rfl
        · rfl
      · rcases app.annualIncomeCents with _ | v
        · rfl
        · dsimp only
          by_cases h0 : h = 0
          · rw [if_neg (by simp [h0])]
          · rw [if_pos (by simp [h0]), hm h hhs]
  have hshape := submitByToken_found s token now app hfind hnd
  refine ⟨?_, ?_, ?_, ?_, ?_⟩
  · rw [hshape, submittedRow]
  · simp [submittedRow, applyUpdates, submitUpdates, he]
  · simp [submittedRow, applyUpdates, submitUpdates, he]
  · simp [submittedRow, applyUpdates, submitUpdates, he]
  · simp [submittedRow, applyUpdates, submitUpdates, he]

/-- C2 witness: a draft application with household size 3 in a database
holding no income limit rows. -/
theorem C2_witness :
    (submitByToken stateNoLimit "tokN" 11).1 =
      SubmitOut.ok (some (submittedRow stateNoLimit.incomeLimits appNoLimit 11)) ∧
    (submittedRow stateNoLimit.incomeLimits appNoLimit 11).systemResult =
      some "NeedsReview" ∧
    (submittedRow stateNoLimit.incomeLimits appNoLimit 11).computedLimitCents =
      none ∧
    (submittedRow stateNoLimit.incomeLimits appNoLimit 11).ruleVersion = none ∧
    (submittedRow stateNoLimit.incomeLimits appNoLimit 11).status = "Submitted" :=
  C2 stateNoLimit "tokN" 11 appNoLimit rfl (by decide)
    (Or.inr (Or.inr (fun h hh => rfl)))

/-- Every status the decision schema accepts lies in the application
status enum. -/
theorem decisionStatuses_subset :
    ∀ v ∈ decisionStatuses, v ∈ applicationStatuses := by decide

/-- C3 counterexample: starting with an empty database, a start operation
followed by an authenticated decision whose body carries the status
`"Garbage"` stores `"Garbage"` on the application — the decision handler
never parses its body against `submitDecisionSchema`, so the stored status
leaves the five-value enum. -/
theorem C3_counterexample :
    startedScenario.1 = StartOut.created "tokC" 1 ∧
    decidedScenario.2.applications.map (fun a => a.status) = ["Garbage"] ∧
    applicationStatuses.contains "Garbage" = false := by
  refine ⟨rfl, ?_, rfl⟩
  decide

/-- C3 (amended): statuses stay within the five-value enum under the
public start and submit operations unconditionally, and under the decision
and update-by-token operations only provided the request body's status is
itself enum-valid (for a decision, one of the `submitDecisionSchema`
values) — neither of those two handlers validates the body, so the
invariant depends on the caller. -/
theorem C3_amended :
    (∀ s raw token now, statusesOk s →
      statusesOk (startApplication s raw token now).2) ∧
    (∀ s token now, statusesOk s →
      statusesOk (submitByToken s token now).2) ∧
    (∀ s authed userId appId body now, statusesOk s →
      body.status ∈ decisionStatuses →
      statusesOk (decision s authed userId appId body now).2) ∧
    (∀ s token body now, statusesOk s →
      (∀ v, body.status = some v → v ∈ applicationStatuses) →
      statusesOk (updateByToken s token body now).2) := by
  refine ⟨?_, ?_, ?_, ?_⟩
  · intro s raw token now hok
    unfold startApplication
    by_cases hv : startValidate raw
    · rw [if_pos hv]
      intro a ha
      rcases List.mem_append.mp ha with h | h
      · exact hok a h
      · rw [List.mem_singleton] at h
        subst h
        exact (by decide : "Draft" ∈ applicationStatuses)
    · rw [if_neg hv]
      exact hok
  · intro s token now hok
    unfold submitByToken
    cases hfind : getApplicationByTokenS s token with
    | none => exact hok
    | some app =>
      dsimp only [updateApplicationS, createActivityEventS]
      exact statusesOk_update s.applications app.id _ now hok
        (fun v hv => Option.some.inj hv ▸ (by decide))
  · intro s authed userId appId body now hok hb
    cases authed with
    | false => exact hok
    | true =>
      unfold decision
      cases hfind : getApplicationS s appId with
      | none => exact hok
      | some app =>
        dsimp only [updateApplicationS, createActivityEventS]
        exact statusesOk_update s.applications app.id _ now hok
          (fun v hv => Option.some.inj hv ▸ decisionStatuses_subset body.status hb)
  · intro s token body now hok hu
    unfold updateByToken
    cases hfind : getApplicationByTokenS s token with
    | none => exact hok
    | some app =>
      dsimp only
      by_cases hst : (app.status != "Draft" && app.status != "NeedsInfo") = true
      · rw [if_pos hst]
        exact hok
      · rw [if_neg hst]
        dsimp only [updateApplicationS]
        exact statusesOk_update s.applications app.id body now hok hu

/-- C3 (amended) witness: an authenticated decision with the schema status
`"Approved"` keeps every stored status inside the enum. -/
theorem C3_amended_witness :
    statusesOk stateMain ∧
    "Approved" ∈ decisionStatuses ∧
    statusesOk (decision stateMain true 7 1
      { status := "Approved", note := "ok" } 5).2 :=
  ⟨by unfold statusesOk; decide, by decide,
   C3_amended.2.2.1 stateMain true 7 1 { status := "Approved", note := "ok" } 5
     (by unfold statusesOk; decide) (by decide)⟩

/-- C4: starting an application validates the body against
`startApplicationSchema`; on success it inserts a new application carrying
the generated token with status `"Draft"` and `systemResult`
`"NeedsReview"` and answers 201 with the token and the new id; on failure
no application is created and the database is untouched. -/
theorem C4 (s : State) (raw : StartInput) (token : String) (now : Int) :
    (startValidate raw = true →
      (startApplication s raw token now).1 = StartOut.created token s.nextAppId ∧
      (startApplication s raw token now).2.applications =
        s.applications ++
          [{ id := s.nextAppId, programId := raw.programId,
             applicantName := raw.applicantName,
             applicantEmail := raw.applicantEmail,
             applicantToken := token, householdSize := none,
             annualIncomeCents := none, computedLimitCents := none,
             systemResult := some "NeedsReview", ruleVersion := none,
             status := "Draft", submittedAt := none, reviewedBy := none,
             updatedAt := now }]) ∧
    (startValidate raw = false →
      startApplication s raw token now = (StartOut.invalid, s)) := by
  constructor
  · intro hv
    unfold startApplication
    rw [if_pos hv]
    exact ⟨rfl, rfl⟩
  · intro hv
    unfold startApplication
    rw [if_neg (by simp [hv])]

/-- C4 witness: a valid body creates the draft row; a body with an empty
name is rejected and creates nothing. -/
theorem C4_witness :
    startValidate startRawGood = true ∧
    (startApplication initialState startRawGood "tokW" 3).1 =
      StartOut.created "tokW" 1 ∧
    startValidate startRawBad = false ∧
    startApplication initialState startRawBad "tokW" 3 =
      (StartOut.invalid, initialState) :=
  ⟨by decide,
   ((C4 initialState startRawGood "tokW" 3).1 (by decide)).1,
   by decide,
   (C4 initialState startRawBad "tokW" 3).2 (by decide)⟩

/-- C6: every reviewer-side operation — list applications, get one
application, submit a decision, export the CSV, create a program, create
an income limit — answers 401 when the requester is not authenticated,
with a response independent of the database and the database unchanged. -/
theorem C6 :
    (∀ s f, listApplications s false f = (ListOut.unauthorized, s)) ∧
    (∀ s i, getApplicationR s false i = (GetOut.unauthorized, s)) ∧
    (∀ s userId appId body now,
      decision s false userId appId body now = (DecisionOut.unauthorized, s)) ∧
    (∀ s, exportApplications s false = (CsvOut.unauthorized, s)) ∧
    (∀ s body, createProgramH s false body = (ProgramOut.unauthorized, s)) ∧
    (∀ s programId body,
      createIncomeLimitH s false programId body = (LimitOut.unauthorized, s)) :=
  ⟨fun _ _ => rfl, fun _ _ => rfl, fun _ _ _ _ _ => rfl, fun _ => rfl,
   fun _ _ => rfl, fun _ _ _ => rfl⟩

/-- C7: an authenticated reviewer decision on an existing application sets
the application's status to the submitted status and `reviewedBy` to the
reviewer's id, and appends exactly one activity event for that application
whose type is `"RequestInfo"` when the submitted status is `"NeedsInfo"`
and `"StatusChange"` otherwise; an unknown application id yields 404 with
the database unchanged. -/
theorem C7 (s : State) (userId appId : Int) (body : DecisionBody) (now : Int)
    (hnd : (s.applications.map (fun x => x.id)).Nodup) :
    (∀ app, getApplicationS s appId = some app →
      (decision s true userId appId body now).1 =
        DecisionOut.ok (some (applyUpdates app (decisionUpdates userId body) now)) ∧
      (applyUpdates app (decisionUpdates userId body) now).status = body.status ∧
      (applyUpdates app (decisionUpdates userId body) now).reviewedBy =
        some userId ∧
      (decision s true userId appId body now).2.activityEvents =
        s.activityEvents ++
          [{ id := s.nextEventId, applicationId := app.id,
             type := if body.status == "NeedsInfo" then "RequestInfo"
                     else "StatusChange",
             message := "Status changed to " ++ body.status ++ ". Note: " ++
               body.note,
             createdByUserId := some userId, createdAt := now }]) ∧
    (getApplicationS s appId = none →
      decision s true userId appId body now = (DecisionOut.notFound, s)) := by
  constructor
  · intro app hfind
    have hshape := decision_found s userId appId body now app hfind hnd
    refine ⟨?_, rfl, rfl, ?_⟩
    · rw [hshape]
    · rw [hshape]
  · intro hnone
    unfold decision
    rw [Bool.not_true, if_neg (by simp), hnone]

/-- C7 witness: a `"NeedsInfo"` decision on the main fixture appends one
`"RequestInfo"` event and stores the status and reviewer. -/
theorem C7_witness :
    (decision stateMain true 7 1 { status := "NeedsInfo", note := "docs" } 3).1 =
      DecisionOut.ok (some (applyUpdates appDraft
        (decisionUpdates 7 { status := "NeedsInfo", note := "docs" }) 3)) ∧
    (applyUpdates appDraft
      (decisionUpdates 7 { status := "NeedsInfo", note := "docs" }) 3).status =
      "NeedsInfo" ∧
    (applyUpdates appDraft
      (decisionUpdates 7 { status := "NeedsInfo", note := "docs" }) 3).reviewedBy =
      some 7 ∧
    (decision stateMain true 7 1
      { status := "NeedsInfo", note := "docs" } 3).2.activityEvents =
      stateMain.activityEvents ++
        [{ id := stateMain.nextEventId, applicationId := appDraft.id,
           type := if ("NeedsInfo" : String) == "NeedsInfo" then "RequestInfo"
                   else "StatusChange",
           message := "Status changed to " ++ "NeedsInfo" ++ ". Note: " ++ "docs",
           createdByUserId := some 7, createdAt := 3 }] :=
  (C7 stateMain 7 1 { status := "NeedsInfo", note := "docs" } 3 (by decide)).1
    appDraft rfl

/-- C8: updating an application by token when its status is neither
`"Draft"` nor `"NeedsInfo"` answers 403 with the message
`"Cannot edit submitted application"` and leaves the whole database (in
particular every field of the application) unchanged; when the status is
`"Draft"` or `"NeedsInfo"` the body is applied to the row. -/
theorem C8 (s : State) (token : String) (body : AppUpdates) (now : Int)
    (app : Application)
    (hfind : getApplicationByTokenS s token = some app)
    (hnd : (s.applications.map (fun x => x.id)).Nodup) :
    ((app.status == "Draft") = false → (app.status == "NeedsInfo") = false →
      updateByToken s token body now =
        (UpdateOut.forbidden "Cannot edit submitted application", s)) ∧
    (app.status = "Draft" ∨ app.status = "NeedsInfo" →
      updateByToken s token body now =
        (UpdateOut.ok (some (applyUpdates app body now)),
         { s with applications := s.applications.map (fun b =>
            if b.id == app.id then applyUpdates b body now else b) })) := by
  constructor
  · intro h1 h2
    unfold updateByToken
    rw [hfind]
    dsimp only
    rw [if_pos (by simp [bne, h1, h2])]
  · intro hst
    exact updateByToken_editable s token body now app hfind hnd hst

/-- C8 witness: a draft application accepts an update, and the approved
fixture rejects one with 403 leaving the database unchanged. -/
theorem C8_witness :
    updateByToken stateMain "tok1" { householdSize := some (some 4) } 5 =
      (UpdateOut.ok (some (applyUpdates appDraft
        { householdSize := some (some 4) } 5)),
       { stateMain with applications := stateMain.applications.map (fun b =>
          if b.id == appDraft.id then
            applyUpdates b { householdSize := some (some 4) } 5
          else b) }) ∧
    updateByToken stateApproved "tokA" { householdSize := some (some 4) } 5 =
      (UpdateOut.forbidden "Cannot edit submitted application", stateApproved) :=
  ⟨(C8 stateMain "tok1" { householdSize := some (some 4) } 5 appDraft rfl
      (by decide)).2 (Or.inl rfl),
   (C8 stateApproved "tokA" { householdSize := some (some 4) } 5 appApproved rfl
      (by decide)).1 (by decide) (by decide)⟩

/-- C9: submission by token checks no status precondition: for an
application in any status, holding the token re-runs submission, which
overwrites `systemResult`, `computedLimitCents`, `ruleVersion` and
`submittedAt` with freshly computed values and moves the status back to
`"Submitted"`. -/
theorem C9 (s : State) (token : String) (now : Int) (app : Application)
    (hfind : getApplicationByTokenS s token = some app)
    (hnd : (s.applications.map (fun x => x.id)).Nodup) :
    (submitByToken s token now).1 =
      SubmitOut.ok (some (submittedRow s.incomeLimits app now)) ∧
    (submittedRow s.incomeLimits app now).status = "Submitted" ∧
    (submittedRow s.incomeLimits app now).submittedAt = some now ∧
    (submittedRow s.incomeLimits app now).systemResult =
      some (computeEligibility s.incomeLimits app).1 ∧
    (submittedRow s.incomeLimits app now).computedLimitCents =
      (computeEligibility s.incomeLimits app).2.1 ∧
    (submittedRow s.incomeLimits app now).ruleVersion =
      (computeEligibility s.incomeLimits app).2.2 := by
  have hshape := submitByToken_found s token now app hfind hnd
  exact ⟨by rw [hshape, submittedRow], rfl, rfl, rfl, rfl, rfl⟩

/-- C9 witness: re-submitting an already approved application succeeds and
returns it to `"Submitted"`. -/
theorem C9_witness :
    appApproved.status = "Approved" ∧
    (submitByToken stateApproved "tokA" 12).1 =
      SubmitOut.ok (some (submittedRow stateApproved.incomeLimits appApproved 12)) ∧
    (submittedRow stateApproved.incomeLimits appApproved 12).status =
      "Submitted" ∧
    (submittedRow stateApproved.incomeLimits appApproved 12).submittedAt =
      some 12 :=
  ⟨rfl, (C9 stateApproved "tokA" 12 appApproved rfl (by decide)).1,
   (C9 stateApproved "tokA" 12 appApproved rfl (by decide)).2.1,
   (C9 stateApproved "tokA" 12 appApproved rfl (by decide)).2.2.1⟩

/-- C10: the submission guard treats the two financial fields
asymmetrically at zero: a household size of 0 skips the limit lookup and
records `"NeedsReview"` even when the income is present and a limit row
for household size 0 exists, whereas an income of 0 with a positive
household size runs the lookup and the comparison. -/
theorem C10 :
    (∀ s token now app inc limit,
      getApplicationByTokenS s token = some app →
      (s.applications.map (fun x => x.id)).Nodup →
      app.householdSize = some 0 →
      app.annualIncomeCents = some inc →
      getIncomeLimitForHousehold s.incomeLimits app.programId 0 = some limit →
      (submitByToken s token now).1 =
        SubmitOut.ok (some (submittedRow s.incomeLimits app now)) ∧
      (submittedRow s.incomeLimits app now).systemResult =
        some "NeedsReview" ∧
      (submittedRow s.incomeLimits app now).computedLimitCents = none) ∧
    (∀ s token now app h limit,
      getApplicationByTokenS s token = some app →
      (s.applications.map (fun x => x.id)).Nodup →
      app.householdSize = some h → 0 < h →
      app.annualIncomeCents = some 0 →
      getIncomeLimitForHousehold s.incomeLimits app.programId h = some limit →
      (submitByToken s token now).1 =
        SubmitOut.ok (some (submittedRow s.incomeLimits app now)) ∧
      (submittedRow s.incomeLimits app now).systemResult =
        some (if (0 : Int) ≤ limit.limitCents then "Eligible"
              else "NotEligible") ∧
      (submittedRow s.incomeLimits app now).computedLimitCents =
        some limit.limitCents) := by
  constructor
  · intro s token now app inc limit hfind hnd hh hinc hlim
    have he : computeEligibility s.incomeLimits app =
        ("NeedsReview", none, none) := by
      unfold computeEligibility
      rw [hh, hinc]
      dsimp only
      rw [if_neg (by simp)]
    have hshape := submitByToken_found s token now app hfind hnd
    exact ⟨by rw [hshape, submittedRow],
           by simp [submittedRow, applyUpdates, submitUpdates, he],
           by simp [submittedRow, applyUpdates, submitUpdates, he]⟩
  · intro s token now app h limit hfind hnd hh hpos hinc hlim
    have he : computeEligibility s.incomeLimits app =
        (if (0 : Int) ≤ limit.limitCents then "Eligible" else "NotEligible",
         some limit.limitCents, some limit.versionLabel) := by
      unfold computeEligibility
      rw [hh, hinc]
      dsimp only
      rw [if_pos (by simp; omega), hlim]
    have hshape := submitByToken_found s token now app hfind hnd
    exact ⟨by rw [hshape, submittedRow],
           by simp [submittedRow, applyUpdates, submitUpdates, he],
           by simp [submittedRow, applyUpdates, submitUpdates, he]⟩

/-- C10 witness: both halves at concrete databases — household size 0 with
a size-0 limit row records `"NeedsReview"` with no computed limit; income
0 with household size 2 runs the comparison against the 4000000 limit. -/
theorem C10_witness :
    ((submitByToken stateZeroHousehold "tokZ" 10).1 =
      SubmitOut.ok (some (submittedRow stateZeroHousehold.incomeLimits
        appZeroHousehold 10)) ∧
     (submittedRow stateZeroHousehold.incomeLimits
        appZeroHousehold 10).systemResult = some "NeedsReview" ∧
     (submittedRow stateZeroHousehold.incomeLimits
        appZeroHousehold 10).computedLimitCents = none) ∧
    ((submitByToken stateZeroIncome "tokI" 10).1 =
      SubmitOut.ok (some (submittedRow stateZeroIncome.incomeLimits
        appZeroIncome 10)) ∧
     (submittedRow stateZeroIncome.incomeLimits
        appZeroIncome 10).systemResult =
       some (if (0 : Int) ≤ limitTwo.limitCents then "Eligible"
             else "NotEligible") ∧
     (submittedRow stateZeroIncome.incomeLimits
        appZeroIncome 10).computedLimitCents = some limitTwo.limitCents) :=
  ⟨C10.1 stateZeroHousehold "tokZ" 10 appZeroHousehold 100 limitZero rfl
     (by decide) rfl rfl rfl,
   C10.2 stateZeroIncome "tokI" 10 appZeroIncome 2 limitTwo rfl
     (by decide) rfl (by decide) rfl rfl⟩
